import Mathlib

/-!
Shallow embedding of the `harmonytics/devcont` Django backend template:
the email-keyed user model and its manager, the two REST endpoints with
the framework dispatch that wraps them, and the settings-profile layering
(local and production rewrites of the base configuration).
-/

namespace DevCont

/-! ## Identity model (`users/models.py`)

`User(AbstractUser)` removes the `username` field (`username = None`),
declares `email = models.EmailField(unique=True)`, sets
`USERNAME_FIELD = "email"`, `REQUIRED_FIELDS = []`, and defines
`__str__` returning `self.email`. -/

structure User where
  email : String
  first_name : String := ""
  last_name : String := ""
  password : String := ""
  is_staff : Bool := false
  is_superuser : Bool := false
  is_active : Bool := true
  deriving Repr, DecidableEq

/-- Concrete field names of the `User` model: the fields inherited from
`AbstractUser`, with `username` removed by the `username = None`
override in `users/models.py` and `email` redeclared as a unique
`EmailField`. -/
def User.fieldNames : List String :=
  ["email", "first_name", "last_name", "password",
   "is_staff", "is_superuser", "is_active", "date_joined", "last_login"]

/-- `USERNAME_FIELD = "email"` in `users/models.py`. -/
def USERNAME_FIELD : String := "email"

/-- `REQUIRED_FIELDS = []` in `users/models.py`. -/
def REQUIRED_FIELDS : List String := []

/-- `User.__str__` returns `self.email`. -/
def User.str (u : User) : String := u.email

/-! ## Persistence

The users table, with the `unique=True` constraint on `email` enforced
by the database at save time. -/

abbrev Db := List User

/-- The database invariant backing `email = models.EmailField(unique=True)`:
no two rows share an email. -/
def emailsUnique (db : Db) : Prop := (db.map User.email).Nodup

instance (db : Db) : Decidable (emailsUnique db) := by
  unfold emailsUnique; infer_instance

/-- `user.save()`: inserting a row fails with an integrity error when the
unique constraint on `email` is violated. -/
def saveUser (u : User) (db : Db) : Except String Db :=
  if db.any (fun v => v.email == u.email) then
    Except.error "UNIQUE constraint failed: users_user.email"
  else
    Except.ok (db ++ [u])

/-! ## Identity manager

`users/managers.py` is imported by `users/models.py`
(`from .managers import UserManager`) but the file itself is not part of
the source snapshot, so the manager is modelled from the specification. -/

/-- `extra_fields` keyword arguments that matter to the manager: explicit
overrides of the staff and superuser flags (absent means not passed). -/
structure ExtraFields where
  is_staff : Option Bool := none
  is_superuser : Option Bool := none
  deriving Repr, DecidableEq

/-- Modelled from the spec: `users/managers.py` is absent from the
snapshot; the spec says `create_user` "normalizes email (case-fold the
domain portion per standard email normalization)".  The address is split
at its last `@`; when one is present the domain portion is lower-cased
and the local part kept intact, otherwise the address is returned
unchanged. -/
def normalize_email (email : String) : String :=
  let cs := email.data
  match cs.reverse.findIdx? (fun c => c == '@') with
  | none => email
  | some k =>
    let i := cs.length - 1 - k
    String.mk (cs.take i ++ ['@'] ++ (cs.drop (i + 1)).map Char.toLower)

/-- Modelled from the spec: the password hasher is framework code absent
from the snapshot; the spec requires only that the stored password is "a
salted hash", "never stored in plaintext".  The stand-in is a
deterministic function whose output is always distinct from its input. -/
def hashPassword (raw : String) : String := "pbkdf2_sha256$" ++ raw

/-- Modelled from the spec: `users/managers.py` is absent from the
snapshot.  `create_user(email, password, **extra_fields)` "normalizes
email ..., fails with a validation error if email is empty, hashes the
password, persists and returns the record".  The database is threaded
explicitly; on failure it is returned unchanged. -/
def create_user (email password : String) (extra : ExtraFields) (db : Db) :
    Except String User × Db :=
  if email = "" then
    (Except.error "The Email must be set", db)
  else
    let u : User :=
      { email := normalize_email email
        password := hashPassword password
        is_staff := extra.is_staff.getD false
        is_superuser := extra.is_superuser.getD false }
    match saveUser u db with
    | Except.error e => (Except.error e, db)
    | Except.ok db2 => (Except.ok u, db2)

/-- Modelled from the spec: `users/managers.py` is absent from the
snapshot.  `create_superuser(email, password, **extra_fields)` is the
"same as above but fails with a configuration error unless `is_staff`
and `is_superuser` are both true in the resulting record": the two flags
default to true when not passed, and an explicit non-true value is
rejected before anything is persisted. -/
def create_superuser (email password : String) (extra : ExtraFields) (db : Db) :
    Except String User × Db :=
  if extra.is_staff.getD true ≠ true then
    (Except.error "Superuser must have is_staff=True.", db)
  else if extra.is_superuser.getD true ≠ true then
    (Except.error "Superuser must have is_superuser=True.", db)
  else
    create_user email password
      { is_staff := some (extra.is_staff.getD true),
        is_superuser := some (extra.is_superuser.getD true) } db

/-! ### Helper lemmas about the manager -/

/-- A successful `create_user` returns exactly the record it built. -/
theorem create_user_ok_shape (email password : String) (extra : ExtraFields)
    (db : Db) (u : User) (h : (create_user email password extra db).1 = Except.ok u) :
    u = { email := normalize_email email
          password := hashPassword password
          is_staff := extra.is_staff.getD false
          is_superuser := extra.is_superuser.getD false } := by
  unfold create_user at h
  split at h
  · simp at h
  · dsimp only at h
    split at h <;> simp_all

/-- The hash stand-in never returns its input: the output is strictly
longer. -/
theorem hashPassword_ne (raw : String) : hashPassword raw ≠ raw := by
  intro h
  have hl : (hashPassword raw).length = raw.length := by rw [h]
  rw [hashPassword, String.length_append] at hl
  have h14 : ("pbkdf2_sha256$" : String).length = 14 := rfl
  omega

/-- A successful `create_superuser` went through `create_user` with both
flags forced to `some true`, so the resulting record has both flags set. -/
theorem create_superuser_ok_shape (email password : String) (extra : ExtraFields)
    (db : Db) (u : User)
    (h : (create_superuser email password extra db).1 = Except.ok u) :
    u.is_staff = true ∧ u.is_superuser = true := by
  unfold create_superuser at h
  split at h
  · simp at h
  · split at h
    · simp at h
    · rename_i h1 h2
      push_neg at h1 h2
      have hu := create_user_ok_shape _ _ _ _ _ h
      subst hu
      simp [h1, h2]

/-- Inserting a fresh email keeps the unique-email invariant. -/
theorem saveUser_preserves (u : User) (db db2 : Db) (hdb : emailsUnique db)
    (h : saveUser u db = Except.ok db2) : emailsUnique db2 := by
  unfold saveUser at h
  split at h
  · simp at h
  · rename_i hany
    have hmem : u.email ∉ db.map User.email := by
      intro hm
      apply hany
      simp only [List.mem_map] at hm
      obtain ⟨v, hv, he⟩ := hm
      simp only [List.any_eq_true]
      exact ⟨v, hv, by simp [he]⟩
    cases h
    unfold emailsUnique
    rw [List.map_append]
    exact hdb.append (by simp) (by simpa [List.disjoint_right] using hmem)

/-- `create_user` keeps the unique-email invariant on the database it
returns, on every path. -/
theorem create_user_preserves (em pw : String) (extra : ExtraFields) (db : Db)
    (hdb : emailsUnique db) : emailsUnique (create_user em pw extra db).2 := by
  unfold create_user
  split
  · exact hdb
  · dsimp only
    split
    · exact hdb
    · rename_i db2 heq
      exact saveUser_preserves _ _ _ hdb heq

/-- `create_superuser` keeps the unique-email invariant on the database
it returns, on every path. -/
theorem create_superuser_preserves (em pw : String) (extra : ExtraFields) (db : Db)
    (hdb : emailsUnique db) : emailsUnique (create_superuser em pw extra db).2 := by
  unfold create_superuser
  split
  · exact hdb
  · split
    · exact hdb
    · exact create_user_preserves _ _ _ _ hdb

/-! ## Claim theorems for the identity model -/

/-- C1: for every non-empty email and password, `create_user` persists and
returns a record whose stored email is the input email with the domain
portion case-folded and whose stored password is the hash, never the
plaintext; for an empty email it fails with a validation error and the
database is unchanged.  (The freshness hypothesis reflects the database
unique constraint on email, which is outside the manager itself.) -/
theorem create_user_correct (email password : String) (extra : ExtraFields) (db : Db) :
    ((email ≠ "") → (∀ v ∈ db, v.email ≠ normalize_email email) →
      ∃ u, create_user email password extra db = (Except.ok u, db ++ [u]) ∧
        u.email = normalize_email email ∧
        u.password = hashPassword password ∧
        u.password ≠ password)
    ∧ create_user "" password extra db = (Except.error "The Email must be set", db) := by
  constructor
  · intro hne hfresh
    have hany : db.any (fun v => v.email == normalize_email email) = false := by
      rw [List.any_eq_false]
      intro v hv
      simpa using hfresh v hv
    refine ⟨{ email := normalize_email email, password := hashPassword password,
              is_staff := extra.is_staff.getD false,
              is_superuser := extra.is_superuser.getD false },
            ?_, rfl, rfl, hashPassword_ne password⟩
    simp [create_user, saveUser, hne, hany]
  · simp [create_user]

/-- C1 witness at a concrete input. -/
theorem create_user_correct_witness :
    ∃ u, create_user "A@Ex.COM" "pw" {} [] = (Except.ok u, [] ++ [u]) ∧
      u.email = normalize_email "A@Ex.COM" ∧
      u.password = hashPassword "pw" ∧
      u.password ≠ "pw" :=
  (create_user_correct "A@Ex.COM" "pw" {} []).1 (by decide) (by simp)

/-- C2: `create_superuser` fails and persists nothing whenever
`is_staff=False` or `is_superuser=False` is passed explicitly, and any
record it does return has both flags true. -/
theorem create_superuser_flags (email password : String) (extra : ExtraFields) (db : Db) :
    ((extra.is_staff = some false ∨ extra.is_superuser = some false) →
      (∃ e, (create_superuser email password extra db).1 = Except.error e) ∧
      (create_superuser email password extra db).2 = db)
    ∧ (∀ u, (create_superuser email password extra db).1 = Except.ok u →
        u.is_staff = true ∧ u.is_superuser = true) := by
  constructor
  · rintro (h | h)
    · simp [create_superuser, h]
    · rcases hs : extra.is_staff with _ | b
      · simp [create_superuser, h, hs]
      · cases b <;> simp [create_superuser, h, hs]
  · intro u hu
    exact create_superuser_ok_shape _ _ _ _ _ hu

/-- C2 witness at a concrete input. -/
theorem create_superuser_flags_witness :
    (∃ e, (create_superuser "a@b.c" "pw" { is_staff := some false } []).1 = Except.error e) ∧
    (create_superuser "a@b.c" "pw" { is_staff := some false } []).2 = [] :=
  (create_superuser_flags "a@b.c" "pw" { is_staff := some false } []).1 (Or.inl rfl)

/-- C8: the model has no `username` field, email is the identity key and
is non-null by construction, and every persisting operation (`save`,
`create_user`, `create_superuser`) preserves uniqueness of emails. -/
theorem user_email_invariant (u : User) (db db2 : Db) (em pw : String)
    (extra : ExtraFields) :
    ("username" ∉ User.fieldNames ∧ "email" ∈ User.fieldNames ∧
      USERNAME_FIELD = "email")
    ∧ (emailsUnique db → saveUser u db = Except.ok db2 → emailsUnique db2)
    ∧ (emailsUnique db → emailsUnique (create_user em pw extra db).2)
    ∧ (emailsUnique db → emailsUnique (create_superuser em pw extra db).2) := by
  refine ⟨⟨by decide, by decide, rfl⟩, ?_, ?_, ?_⟩
  · exact fun hdb h => saveUser_preserves u db db2 hdb h
  · exact fun hdb => create_user_preserves em pw extra db hdb
  · exact fun hdb => create_superuser_preserves em pw extra db hdb

/-- C8 witness at a concrete input. -/
theorem user_email_invariant_witness :
    emailsUnique (create_user "a@b.c" "pw" {} [{ email := "x@y.z" }]).2 :=
  (user_email_invariant { email := "x@y.z" } [{ email := "x@y.z" }] []
      "a@b.c" "pw" {}).2.2.1 (by decide)

/-- C9: the string representation of any `User` instance is exactly its
email attribute. -/
theorem user_str_eq_email (u : User) : User.str u = u.email := rfl

/-! ## API surface (`api/views.py`, `api/urls.py`)

The two view functions are wrapped by the REST framework's function-view
decorator: `@api_view(["GET"])` plus `@permission_classes([...])`.  The
framework's dispatch runs the permission checks (`initial`) first and
only then selects a handler by HTTP method, answering 405 when the
method is not among the declared ones; the wrapped view body itself is
only ever invoked for an allowed method after permissions pass. -/

inductive Method
  | GET | POST | PUT | PATCH | DELETE | HEAD | OPTIONS
  deriving Repr, DecidableEq

/-- A JSON value as it appears in these endpoint bodies. -/
inductive JsonVal
  | s (v : String)
  | b (v : Bool)
  deriving Repr, DecidableEq

abbrev JsonObj := List (String × JsonVal)

/-- An inbound request after the framework's authentication middleware has
resolved the session: `authUser` is the authenticated identity, if any. -/
structure Request where
  method : Method
  authUser : Option User := none
  deriving Repr

structure Response where
  status : Nat
  body : JsonObj
  deriving Repr, DecidableEq

/-- A view in this embedding may read and write the persistent store, so
state is threaded explicitly; both actual views leave it unchanged. -/
abbrev View := Request → Db → Response × Db

inductive Perm
  | AllowAny
  | IsAuthenticated
  deriving Repr, DecidableEq

def hasPermission (p : Perm) (req : Request) : Bool :=
  match p with
  | Perm.AllowAny => true
  | Perm.IsAuthenticated => req.authUser.isSome

/-- Modelled from the spec: the framework surfaces the failed
`IsAuthenticated` check "as an HTTP 401/403"; which of the two depends on
the configured authenticators (the settings base module is not in the
snapshot).  Session authentication issues no challenge, giving 403. -/
def authFailureStatus : Nat := 403

/-- Modelled from the spec: `users/serializers.py` (`UserSerializer`) is
not in the snapshot; the spec says the endpoint "serializes and returns
the caller's own identity record", i.e. the serialized fields of the
logged-in identity. -/
def serializeUser (u : User) : JsonObj :=
  [("email", JsonVal.s u.email),
   ("first_name", JsonVal.s u.first_name),
   ("last_name", JsonVal.s u.last_name),
   ("is_staff", JsonVal.b u.is_staff),
   ("is_superuser", JsonVal.b u.is_superuser),
   ("is_active", JsonVal.b u.is_active)]

/-- `health_check(request)`: returns
`Response({"status": "ok", "message": "Django API is running"})` (HTTP
200 by default) and touches no state. -/
def health_check : View := fun _req db =>
  ({ status := 200,
     body := [("status", JsonVal.s "ok"),
              ("message", JsonVal.s "Django API is running")] }, db)

/-- `current_user(request)`: serializes `request.user` and returns it with
HTTP 200.  Dispatch guarantees `authUser` is present when this body runs;
the `none` branch is unreachable through `dispatch`. -/
def current_user : View := fun req db =>
  ({ status := 200,
     body := match req.authUser with
             | some u => serializeUser u
             | none => [] }, db)

/-- The framework dispatch for a function view built by
`api_view(allowed)` with `permission_classes(perms)`: permission checks
run first (`initial`), then the handler is selected by method, with 405
for a method that is not declared.  The wrapped view body runs only when
both gates pass. -/
def dispatch (allowed : List Method) (perms : List Perm) (view : View)
    (req : Request) (db : Db) : Response × Db :=
  if perms.all (fun p => hasPermission p req) then
    if req.method ∈ allowed then
      view req db
    else
      ({ status := 405, body := [("detail", JsonVal.s "Method not allowed.")] }, db)
  else
    ({ status := authFailureStatus,
       body := [("detail", JsonVal.s "Authentication credentials were not provided.")] }, db)

/-- `path("health/", views.health_check)` with its decorators. -/
def healthEndpoint (req : Request) (db : Db) : Response × Db :=
  dispatch [Method.GET] [Perm.AllowAny] health_check req db

/-- `path("users/me/", views.current_user)` with its decorators. -/
def usersMeEndpoint (req : Request) (db : Db) : Response × Db :=
  dispatch [Method.GET] [Perm.IsAuthenticated] current_user req db

/-! ## Claim theorems for the API surface -/

/-- C3: a GET of `/users/me/` without an authenticated session is answered
401 or 403; with an authenticated session it is answered 200 with the
serialized fields of that identity, and the store is untouched. -/
theorem usersMe_requires_auth (req : Request) (db : Db)
    (hm : req.method = Method.GET) :
    (req.authUser = none →
      ((usersMeEndpoint req db).1.status = 401 ∨
       (usersMeEndpoint req db).1.status = 403))
    ∧ (∀ u, req.authUser = some u →
        (usersMeEndpoint req db).1 = { status := 200, body := serializeUser u }
        ∧ (usersMeEndpoint req db).2 = db) := by
  constructor
  · intro hnone
    right
    simp [usersMeEndpoint, dispatch, hasPermission, hnone, authFailureStatus]
  · intro u hu
    simp [usersMeEndpoint, dispatch, hasPermission, hu, hm, current_user]

/-- C3 witness at concrete inputs. -/
theorem usersMe_requires_auth_witness :
    (usersMeEndpoint { method := Method.GET } []).1.status = 401 ∨
    (usersMeEndpoint { method := Method.GET } []).1.status = 403 :=
  (usersMe_requires_auth { method := Method.GET } [] rfl).1 rfl

/-- C4: a GET of `/health/` is answered 200 with exactly
`{"status": "ok", "message": "Django API is running"}`, whatever the
authentication state, and the store is untouched (no side effects). -/
theorem health_always_ok (req : Request) (db : Db)
    (hm : req.method = Method.GET) :
    healthEndpoint req db =
      ({ status := 200,
         body := [("status", JsonVal.s "ok"),
                  ("message", JsonVal.s "Django API is running")] }, db) := by
  simp [healthEndpoint, dispatch, hasPermission, hm, health_check]

/-- C4 witness at a concrete input. -/
theorem health_always_ok_witness :
    healthEndpoint { method := Method.GET } [] =
      ({ status := 200,
         body := [("status", JsonVal.s "ok"),
                  ("message", JsonVal.s "Django API is running")] }, []) :=
  health_always_ok { method := Method.GET } [] rfl

/-- C10 counterexample: an unauthenticated POST to `/users/me/` is not
answered 405 — the permission check runs before the method check, so the
framework answers with the authentication failure status instead. -/
theorem non_get_usersMe_unauth_not_405 :
    (usersMeEndpoint { method := Method.POST } []).1.status ≠ 405 := by
  decide

/-- C10 (amended): a non-GET request never executes either view body;
`/health/` answers every non-GET with 405, `/users/me/` answers an
authenticated non-GET with 405 but an unauthenticated non-GET with the
401/403 authentication failure, because permissions are checked before
the method. -/
theorem non_get_rejected (req : Request) (db : Db)
    (hm : req.method ≠ Method.GET) :
    ((healthEndpoint req db).1.status = 405 ∧ (healthEndpoint req db).2 = db)
    ∧ (req.authUser.isSome = true →
        (usersMeEndpoint req db).1.status = 405 ∧ (usersMeEndpoint req db).2 = db)
    ∧ (req.authUser = none →
        ((usersMeEndpoint req db).1.status = 401 ∨
         (usersMeEndpoint req db).1.status = 403))
    ∧ (∀ v : View,
        dispatch [Method.GET] [Perm.AllowAny] v req db = healthEndpoint req db
        ∧ dispatch [Method.GET] [Perm.IsAuthenticated] v req db = usersMeEndpoint req db) := by
  refine ⟨?_, ?_, ?_, ?_⟩
  · constructor <;> simp [healthEndpoint, dispatch, hasPermission, hm]
  · intro hu
    constructor <;> simp [usersMeEndpoint, dispatch, hasPermission, hm, hu]
  · intro hnone
    right
    simp [usersMeEndpoint, dispatch, hasPermission, hnone, authFailureStatus]
  · intro v
    constructor
    · simp [healthEndpoint, dispatch, hasPermission, hm]
    · rcases hu : req.authUser with _ | u <;>
        simp [usersMeEndpoint, dispatch, hasPermission, hm, hu]

/-- C10 (amended) witness at a concrete input. -/
theorem non_get_rejected_witness :
    ((healthEndpoint { method := Method.POST } []).1.status = 405 ∧
      (healthEndpoint { method := Method.POST } []).2 = []) :=
  (non_get_rejected { method := Method.POST } [] (by decide)).1

/-! ## Settings profiles (`config/settings/local.py`, `production.py`)

Each profile does `from .base import *` and then assigns or mutates
individual settings.  The rewrites that involve the base value are
embedded as functions of the base value, so they are quantified over
every possible base chain. -/

def securityMW : String := "django.middleware.security.SecurityMiddleware"

def whiteNoiseMW : String := "whitenoise.middleware.WhiteNoiseMiddleware"

/-- Python `list.index(x)`: the index of the first occurrence of `x`,
raising `ValueError` when `x` does not occur. -/
def pyListIndex (xs : List String) (x : String) : Except String Nat :=
  match xs with
  | [] => Except.error "ValueError: x is not in list"
  | y :: ys =>
    if y = x then Except.ok 0
    else
      match pyListIndex ys x with
      | Except.ok i => Except.ok (i + 1)
      | Except.error e => Except.error e

/-- `production.py`:
`MIDDLEWARE = [*MIDDLEWARE[:MIDDLEWARE.index(sec) + 1], whitenoise,
*MIDDLEWARE[MIDDLEWARE.index(sec) + 1:]]` — the security middleware is
looked up twice with `list.index`, and either lookup raises when it is
absent from the base chain. -/
def productionMiddleware (base : List String) : Except String (List String) :=
  match pyListIndex base securityMW, pyListIndex base securityMW with
  | Except.ok i, Except.ok j =>
      Except.ok (base.take (i + 1) ++ [whiteNoiseMW] ++ base.drop (j + 1))
  | Except.error e, _ => Except.error e
  | _, Except.error e => Except.error e

/-- `local.py`: `INSTALLED_APPS += ["debug_toolbar"]` followed later by
`INSTALLED_APPS += ["django_extensions"]`. -/
def localInstalledApps (base : List String) : List String :=
  (base ++ ["debug_toolbar"]) ++ ["django_extensions"]

/-- `local.py`: `MIDDLEWARE += ["debug_toolbar.middleware.DebugToolbarMiddleware"]`. -/
def localMiddleware (base : List String) : List String :=
  base ++ ["debug_toolbar.middleware.DebugToolbarMiddleware"]

/-- `list.index` on a list without the element raises. -/
theorem pyListIndex_not_mem (xs : List String) (x : String) (h : x ∉ xs) :
    pyListIndex xs x = Except.error "ValueError: x is not in list" := by
  induction xs with
  | nil => rfl
  | cons y ys ih =>
    simp only [List.mem_cons, not_or] at h
    rw [pyListIndex, if_neg (fun he => h.1 he.symm), ih h.2]

/-- `list.index` finds the first occurrence. -/
theorem pyListIndex_first (pre post : List String) (x : String) (h : x ∉ pre) :
    pyListIndex (pre ++ x :: post) x = Except.ok pre.length := by
  induction pre with
  | nil => simp [pyListIndex]
  | cons a t ih =>
    simp only [List.mem_cons, not_or] at h
    rw [List.cons_append, pyListIndex, if_neg (fun he => h.1 he.symm), ih h.2]
    simp

/-! ## Claim theorems for the settings profiles -/

/-- C5 counterexample: on a base chain without the security middleware the
production rewrite does not fail silently — the `list.index` lookup
raises a `ValueError`, so no middleware chain is produced at all. -/
theorem production_missing_counterexample :
    productionMiddleware ["django.middleware.common.CommonMiddleware"] =
      Except.error "ValueError: x is not in list" := by
  rfl

/-- C5 (amended): for every base chain that lacks the security middleware,
the production middleware rewrite raises an error (a `ValueError` from
`list.index`) instead of producing any chain; the failure is loud, not
silent. -/
theorem production_missing_raises (base : List String) (h : securityMW ∉ base) :
    productionMiddleware base = Except.error "ValueError: x is not in list" := by
  unfold productionMiddleware
  rw [pyListIndex_not_mem base securityMW h]

/-- C5 (amended) witness at a concrete input. -/
theorem production_missing_raises_witness :
    productionMiddleware ["a.b.C", "d.e.F"] =
      Except.error "ValueError: x is not in list" :=
  production_missing_raises ["a.b.C", "d.e.F"] (by decide)

/-- C6: on every base chain containing the security middleware, the
production chain is the base chain with the WhiteNoise middleware
inserted immediately after the first occurrence of the security
middleware, everything else unchanged and in order. -/
theorem production_inserts_whitenoise (pre post : List String)
    (hpre : securityMW ∉ pre) :
    productionMiddleware (pre ++ securityMW :: post) =
      Except.ok (pre ++ securityMW :: whiteNoiseMW :: post) := by
  unfold productionMiddleware
  rw [pyListIndex_first pre post securityMW hpre]
  have hsplit : pre ++ securityMW :: post = (pre ++ [securityMW]) ++ post := by
    simp
  have hlen : (pre ++ [securityMW]).length = pre.length + 1 := by simp
  have htake : (pre ++ securityMW :: post).take (pre.length + 1) = pre ++ [securityMW] := by
    rw [hsplit, ← hlen, List.take_left]
  have hdrop : (pre ++ securityMW :: post).drop (pre.length + 1) = post := by
    rw [hsplit, ← hlen, List.drop_left]
  simp [htake, hdrop]

/-- C6 witness at a concrete input. -/
theorem production_inserts_whitenoise_witness :
    productionMiddleware ["x.Y", securityMW, "z.W"] =
      Except.ok ["x.Y", securityMW, whiteNoiseMW, "z.W"] :=
  production_inserts_whitenoise ["x.Y"] ["z.W"] (by decide)

/-- C7 counterexample: the local profile's `INSTALLED_APPS` is not a
wholesale replacement of the base value — it is the base value with two
entries appended, so it varies with (and contains) the base value. -/
theorem local_apps_counterexample :
    localInstalledApps ["django.contrib.admin"] =
      ["django.contrib.admin", "debug_toolbar", "django_extensions"] ∧
    localInstalledApps ["users"] =
      ["users", "debug_toolbar", "django_extensions"] ∧
    localInstalledApps ["django.contrib.admin"] ≠ localInstalledApps ["users"] := by
  decide

/-- C7 (amended): profile values override base values per key, but not
always wholesale: the local profile computes `INSTALLED_APPS` and
`MIDDLEWARE` by appending to the base values (and the production profile
splices the base `MIDDLEWARE`, see the C6 development). -/
theorem local_settings_append (apps mw : List String) :
    localInstalledApps apps = apps ++ ["debug_toolbar", "django_extensions"] ∧
    localMiddleware mw = mw ++ ["debug_toolbar.middleware.DebugToolbarMiddleware"] := by
  constructor <;> simp [localInstalledApps, localMiddleware]

end DevCont
